import Mathlib

/-
Verification development for auditwheel's whichprovides module
(src/auditwheel/whichprovides.py).  The Python module resolves the OS
package that provides a file: it reads the distro identifier from
/etc/os-release, locates package-manager binaries with a memoizing
cache, and runs an ordered chain of provider probes (apk, dpkg, rpm,
apt), returning a Provides record or None.

The shallow embedding below translates the module into pure Lean
functions.  External effects are represented explicitly:
  - the os-release file is an Option String (none models OSError on open);
  - each subprocess.check_output call is an Except Unit String value
    supplied by the environment (.error models CalledProcessError,
    that is a non-zero exit; .ok carries the decoded stdout);
  - shutil.which and the version sanity invocation of the binary
    locator are functions in a LocEnv record;
  - the process-wide cache _PACKAGE_MANAGER_BINS is threaded as an
    explicit association list, and the locator additionally reports
    how many filesystem searches and process spawns it performed;
  - a Python exception that the module does not catch is modelled as
    an Except error result (PyErr.valueErr for ValueError from tuple
    unpacking, PyErr.osErr for OSError from a spawn attempt).

Regular expressions of the source are translated into explicit
character-list parsers with the same matching semantics (anchoring,
greediness, leftmost search) on their character classes.
-/

namespace Whichprovides

/-- ASCII fragment of Python whitespace, as matched by the regex class
backslash-s and stripped by str.strip(). -/
def pyWs (c : Char) : Bool :=
  c == ' ' || c == '\t' || c == '\n' || c == '\r' || c == '\x0b' || c == '\x0c'

/-- Python str.strip(): drop whitespace from both ends. -/
def pyStrip (l : List Char) : List Char :=
  ((l.dropWhile pyWs).reverse.dropWhile pyWs).reverse

/-- Python str.split(sep = single space, maxsplit = n): worker.  The
accumulator holds the current field reversed; n counts remaining splits. -/
def pySplitGo : Nat → List Char → List Char → List (List Char)
  | _, [], acc => [acc.reverse]
  | n, c :: cs, acc =>
    if c = ' ' then
      match n with
      | 0 => pySplitGo 0 cs (c :: acc)
      | m + 1 => acc.reverse :: pySplitGo m cs []
    else pySplitGo n cs (c :: acc)

/-- stdout.strip().split(" ", 4) of the rpm probe, before stripping. -/
def pySplit4 (l : List Char) : List (List Char) :=
  pySplitGo 4 l []

/-- Characters allowed in the name group of _APK_WHO_OWNS_RE: neither
whitespace nor a hyphen. -/
def apkNameChar (c : Char) : Bool := !pyWs c && c != '-'

/-- Literal of _APK_WHO_OWNS_RE before the capture groups. -/
def apkLit : List Char := " is owned by ".toList

/-- Attempt to match the tail of _APK_WHO_OWNS_RE (the part after the
literal) at the current position: a non-empty run of name characters,
a hyphen, then a non-empty whitespace-free version reaching the end of
the string (the regex ends with an end-of-string anchor). -/
def apkTail (l : List Char) : Option (String × String) :=
  match l.drop (l.takeWhile apkNameChar).length with
  | '-' :: v =>
    if l.takeWhile apkNameChar ≠ [] ∧ v ≠ [] ∧ v.all (fun c => !pyWs c) then
      some ((l.takeWhile apkNameChar).asString, v.asString)
    else none
  | _ => none

/-- re.search of _APK_WHO_OWNS_RE: try each start position left to
right, requiring the literal there and the tail pattern through to the
end of the string. -/
def apkSearch : List Char → Option (String × String)
  | [] => none
  | c :: cs =>
    match (if apkLit.isPrefixOf (c :: cs) then apkTail ((c :: cs).drop apkLit.length) else none) with
    | some r => some r
    | none => apkSearch cs

/-- Parser of the apk probe stdout (_APK_WHO_OWNS_RE.search). -/
def apkParse (s : String) : Option (String × String) :=
  apkSearch s.toList

/-- Parser of dpkg -S stdout (_DPKG_SEARCH_RE.search): the pattern is
anchored at the start of the string (no MULTILINE flag), capturing a
non-empty colon-free prefix followed by a colon. -/
def dpkgSearchParse (s : String) : Option String :=
  match s.toList.drop (s.toList.takeWhile (fun c => c != ':')).length with
  | ':' :: _ =>
    if s.toList.takeWhile (fun c => c != ':') ≠ [] then
      some (s.toList.takeWhile (fun c => c != ':')).asString
    else none
  | _ => none

/-- Parser of apt-file search stdout (_APT_FILE_SEARCH_RE.search):
anchored at the start of the string, a non-empty colon-free prefix
followed by a colon and a space. -/
def aptFileSearchParse (s : String) : Option String :=
  match s.toList.drop (s.toList.takeWhile (fun c => c != ':')).length with
  | ':' :: ' ' :: _ =>
    if s.toList.takeWhile (fun c => c != ':') ≠ [] then
      some (s.toList.takeWhile (fun c => c != ':')).asString
    else none
  | _ => none

/-- Literal of _DPKG_VERSION_RE before the capture group. -/
def versionLit : List Char := "Version: ".toList

/-- Attempt to match _DPKG_VERSION_RE at a line start: the literal
followed by a non-empty run of non-whitespace characters. -/
def versionAt (l : List Char) : Option String :=
  if versionLit.isPrefixOf l then
    if (l.drop versionLit.length).takeWhile (fun c => !pyWs c) ≠ [] then
      some ((l.drop versionLit.length).takeWhile (fun c => !pyWs c)).asString
    else none
  else none

/-- re.search of _DPKG_VERSION_RE with the MULTILINE flag: the caret
matches at the start of the string and after each newline; positions
are tried left to right. -/
def verSearchAux : Bool → List Char → Option String
  | _, [] => none
  | atStart, c :: cs =>
    match (if atStart then versionAt (c :: cs) else none) with
    | some v => some v
    | none => verSearchAux (c == '\n') cs

/-- Parser shared by dpkg -s and apt show stdout (_DPKG_VERSION_RE). -/
def versionSearch (s : String) : Option String :=
  verSearchAux true s.toList

/-- Key characters of _OS_RELEASE_LINES_RE: uppercase letters and
underscore. -/
def osKeyChar (c : Char) : Bool := ('A' ≤ c && c ≤ 'Z') || c == '_'

/-- Value selection of _os_release: the quoted group when it is truthy
(non-empty), else the unquoted group. -/
def osValuePick (q u : String) : String :=
  if q ≠ "" then q else u

/-- Match _OS_RELEASE_LINES_RE against one line: a non-empty run of key
characters, an equals sign, then either a fully double-quoted value
(the closing quote at the end of the line) or the bare remainder of
the line. -/
def osReleaseLine (l : List Char) : Option (String × String) :=
  let k := l.takeWhile osKeyChar
  match l.drop k.length with
  | '=' :: rest =>
    if k = [] then none
    else
      match rest with
      | '"' :: tl =>
        let inner := tl.takeWhile (fun c => c != '"')
        if tl.drop inner.length = ['"'] then
          some (k.asString, osValuePick inner.asString "")
        else
          some (k.asString, osValuePick "" ('"' :: tl).asString)
      | _ => some (k.asString, osValuePick "" rest.asString)
  | _ => none

/-- Split a character list into its newline-separated lines. -/
def splitLinesAux : List Char → List Char → List (List Char)
  | [], acc => [acc.reverse]
  | c :: cs, acc =>
    if c = '\n' then acc.reverse :: splitLinesAux cs []
    else splitLinesAux cs (c :: acc)

/-- findall of _OS_RELEASE_LINES_RE over the file content together with
the value selection of each match, in file order. -/
def osReleaseParse (content : String) : List (String × String) :=
  (splitLinesAux content.toList []).filterMap osReleaseLine

/-- Python dict lookup over the key/value pairs in insertion order:
the last binding of a key wins. -/
def dictGet (kvs : List (String × String)) (k : String) : Option String :=
  (kvs.reverse.find? (fun kv => kv.1 == k)).map (fun kv => kv.2)

/-- Model of _os_release: the file content when it could be opened
(none models OSError), parsed into key/value pairs. -/
def os_release (file : Option String) : List (String × String) :=
  match file with
  | none => []
  | some content => osReleaseParse content

/-- Python truthiness of an optional string: None and the empty string
are falsy. -/
def strTruthy : Option String → Bool
  | none => false
  | some s => s != ""

/-- The Provides dataclass. -/
structure Provides where
  package_type : String
  distro : Option String
  package_name : String
  package_version : String
deriving DecidableEq, Repr

/-- The purl property of Provides: the distro segment is included only
when the distro field is truthy, and the literal distro qualifier
suffix is appended unconditionally. -/
def Provides.purl (p : Provides) : String :=
  "pkg:" ++ p.package_type ++ "/" ++
    (match p.distro with
     | some d => if d != "" then d ++ "/" else ""
     | none => "") ++
    p.package_name ++ "@" ++ p.package_version ++ "?distro=almalinux-8"

/-- The _PACKAGE_MANAGER_BINS cache: a name maps to some path (usable
binary) or to none (the False sentinel for confirmed absent); a name
without an entry has not been probed. -/
abbrev Cache := List (String × Option String)

/-- Dict lookup in the cache. -/
def cacheGet (c : Cache) (nm : String) : Option (Option String) :=
  (List.find? (fun kv => kv.1 == nm) c).map (fun kv => kv.2)

/-- Outcome of attempting to run the located binary with --version:
either the process ran and exited with a code, or the spawn itself
failed (OSError territory, not CalledProcessError). -/
inductive SpawnRes where
  | exited (code : Int)
  | execFail
deriving DecidableEq

/-- Environment of the binary locator: shutil.which and the result of
spawning a found path with --version. -/
structure LocEnv where
  which : String → Option String
  versionRun : String → SpawnRes

/-- Model of _package_manager_bin.  Returns the result (or an uncaught
OSError as .error), the updated cache, the number of filesystem
searches (shutil.which calls) and the number of spawn attempts.  Only
CalledProcessError is caught by the source; a spawn failure escapes
before any cache write. -/
def package_manager_bin (env : LocEnv) (cache : Cache) (nm : String)
    (expectCodes : List Int) :
    Except Unit (Option String) × Cache × Nat × Nat :=
  match cacheGet cache nm with
  | some v => (.ok v, cache, 0, 0)
  | none =>
    match env.which nm with
    | none => (.ok none, (nm, none) :: cache, 1, 0)
    | some p =>
      match env.versionRun p with
      | .exited code =>
        if code = 0 then (.ok (some p), (nm, some p) :: cache, 1, 1)
        else if code ∈ expectCodes then (.ok (some p), (nm, some p) :: cache, 1, 1)
        else (.ok none, (nm, none) :: cache, 1, 1)
      | .execFail => (.error (), cache, 1, 1)

/-- Uncaught Python exceptions of the resolver: ValueError from the
rpm tuple unpacking, OSError from a locator spawn attempt. -/
inductive PyErr where
  | valueErr
  | osErr
deriving DecidableEq

/-- Environment of one whichprovides call: the os-release file content
and the stdout (or non-zero-exit error) of each subprocess invocation
the probes can make.  The second dpkg and apt invocations depend on
the package name extracted by the first, hence the function fields. -/
structure ProbeEnv where
  osFile : Option String
  loc : LocEnv
  apkOut : Except Unit String
  dpkgSearchOut : Except Unit String
  dpkgStatusOut : String → Except Unit String
  rpmOut : Except Unit String
  aptFileOut : Except Unit String
  aptShowOut : String → Except Unit String

/-- The apk probe together with its guard, as one stage: result .ok
none means fall through to the next probe with the given cache. -/
def apkStage (env : ProbeEnv) (distro : Option String) (cache : Cache) :
    Except PyErr (Option Provides) × Cache :=
  if strTruthy distro then
    match package_manager_bin env.loc cache "apk" [] with
    | (.error _, c, _, _) => (.error .osErr, c)
    | (.ok none, c, _, _) => (.ok none, c)
    | (.ok (some _), c, _, _) =>
      match env.apkOut with
      | .error _ => (.ok none, c)
      | .ok out =>
        match apkParse out with
        | some (n, v) => (.ok (some ⟨"apk", distro, n, v⟩), c)
        | none => (.ok none, c)
  else (.ok none, cache)

/-- The dpkg probe stage: dpkg -S, then dpkg -s on the extracted name;
both invocations sit in one try block of the source. -/
def dpkgStage (env : ProbeEnv) (distro : Option String) (cache : Cache) :
    Except PyErr (Option Provides) × Cache :=
  if strTruthy distro then
    match package_manager_bin env.loc cache "dpkg" [] with
    | (.error _, c, _, _) => (.error .osErr, c)
    | (.ok none, c, _, _) => (.ok none, c)
    | (.ok (some _), c, _, _) =>
      match env.dpkgSearchOut with
      | .error _ => (.ok none, c)
      | .ok out1 =>
        match dpkgSearchParse out1 with
        | none => (.ok none, c)
        | some n =>
          match env.dpkgStatusOut n with
          | .error _ => (.ok none, c)
          | .ok out2 =>
            match versionSearch out2 with
            | some v => (.ok (some ⟨"deb", distro, n, v⟩), c)
            | none => (.ok none, c)
  else (.ok none, cache)

/-- The rpm probe stage.  The source unpacks stdout.strip().split(" ", 4)
into name, version, release and a discarded remainder; fewer than three
fields raise a ValueError that no handler catches (only
CalledProcessError is caught), modelled as the .error result. -/
def rpmStage (env : ProbeEnv) (distro : Option String) (cache : Cache) :
    Except PyErr (Option Provides) × Cache :=
  if strTruthy distro then
    match package_manager_bin env.loc cache "rpm" [] with
    | (.error _, c, _, _) => (.error .osErr, c)
    | (.ok none, c, _, _) => (.ok none, c)
    | (.ok (some _), c, _, _) =>
      match env.rpmOut with
      | .error _ => (.ok none, c)
      | .ok out =>
        match pySplit4 (pyStrip out.toList) with
        | a :: b :: r :: _ =>
          (.ok (some ⟨"rpm", distro, a.asString, b.asString ++ "-" ++ r.asString⟩), c)
        | _ => (.error .valueErr, c)
  else (.ok none, cache)

/-- The apt probe stage: both the apt and the apt-file binaries must
locate (apt-file with exit code 2 accepted), then apt-file search and
apt show with the shared Version parser. -/
def aptStage (env : ProbeEnv) (distro : Option String) (cache : Cache) :
    Except PyErr (Option Provides) × Cache :=
  if strTruthy distro then
    match package_manager_bin env.loc cache "apt" [] with
    | (.error _, c, _, _) => (.error .osErr, c)
    | (.ok none, c, _, _) => (.ok none, c)
    | (.ok (some _), c1, _, _) =>
      match package_manager_bin env.loc c1 "apt-file" [2] with
      | (.error _, c, _, _) => (.error .osErr, c)
      | (.ok none, c, _, _) => (.ok none, c)
      | (.ok (some _), c2, _, _) =>
        match env.aptFileOut with
        | .error _ => (.ok none, c2)
        | .ok out1 =>
          match aptFileSearchParse out1 with
          | none => (.ok none, c2)
          | some n =>
            match env.aptShowOut n with
            | .error _ => (.ok none, c2)
            | .ok out2 =>
              match versionSearch out2 with
              | some v => (.ok (some ⟨"deb", distro, n, v⟩), c2)
              | none => (.ok none, c2)
  else (.ok none, cache)

/-- Sequence two stages: a fall-through (.ok none) continues with the
updated cache, a record or an uncaught exception stops the chain. -/
def chain2 (r : Except PyErr (Option Provides) × Cache)
    (k : Cache → Except PyErr (Option Provides) × Cache) :
    Except PyErr (Option Provides) × Cache :=
  match r with
  | (.ok none, c) => k c
  | (.ok (some p), c) => (.ok (some p), c)
  | (.error e, c) => (.error e, c)

/-- Model of whichprovides: resolve the distro once, then run the four
probe stages in source order; if every stage falls through the result
is .ok none (the Python None). -/
def whichprovides (env : ProbeEnv) (cache : Cache) :
    Except PyErr (Option Provides) × Cache :=
  let distro := dictGet (os_release env.osFile) "ID"
  chain2 (apkStage env distro cache) fun c1 =>
  chain2 (dpkgStage env distro c1) fun c2 =>
  chain2 (rpmStage env distro c2) fun c3 =>
  aptStage env distro c3

/-- Probe outcome in which the apk probe runs but produces no record:
a non-zero exit of the invocation or stdout the pattern rejects. -/
def apkMiss (env : ProbeEnv) : Prop :=
  env.apkOut = .error () ∨ ∃ s, env.apkOut = .ok s ∧ apkParse s = none

/-- Probe outcome in which the dpkg probe runs but produces no record:
a non-zero exit of either invocation, unmatched search output, or a
matched name whose status output has no Version line. -/
def dpkgMiss (env : ProbeEnv) : Prop :=
  env.dpkgSearchOut = .error ()
  ∨ (∃ s, env.dpkgSearchOut = .ok s ∧ dpkgSearchParse s = none)
  ∨ (∃ s n, env.dpkgSearchOut = .ok s ∧ dpkgSearchParse s = some n ∧
      (env.dpkgStatusOut n = .error ()
        ∨ ∃ s2, env.dpkgStatusOut n = .ok s2 ∧ versionSearch s2 = none))

/-- Probe outcome in which the apt probe runs but produces no record. -/
def aptMiss (env : ProbeEnv) : Prop :=
  env.aptFileOut = .error ()
  ∨ (∃ s, env.aptFileOut = .ok s ∧ aptFileSearchParse s = none)
  ∨ (∃ s n, env.aptFileOut = .ok s ∧ aptFileSearchParse s = some n ∧
      (env.aptShowOut n = .error ()
        ∨ ∃ s2, env.aptShowOut n = .ok s2 ∧ versionSearch s2 = none))

/-- Locator environment whose search never finds a binary. -/
def locAbsent : LocEnv :=
  { which := fun _ => none, versionRun := fun _ => .exited 0 }

/-- Locator environment whose found binary cannot be spawned. -/
def locSpawnFail : LocEnv :=
  { which := fun _ => some "/usr/bin/rpm", versionRun := fun _ => .execFail }

/-- Locator environment whose found binary exits with code 3 on the
version query. -/
def locBadExit : LocEnv :=
  { which := fun _ => some "/usr/bin/tool", versionRun := fun _ => .exited 3 }

/-- Environment of the C1 counterexample: no apk or dpkg binary, a
working rpm whose query output has fewer than three fields, and a
working apt pair that would report an owner. -/
def envChainBreak : ProbeEnv :=
  { osFile := some "ID=\"ubuntu\""
    loc := { which := fun nm => if nm = "apk" ∨ nm = "dpkg" then none
                                else some ("/usr/bin/" ++ nm)
             versionRun := fun _ => .exited 0 }
    apkOut := .error ()
    dpkgSearchOut := .error ()
    dpkgStatusOut := fun _ => .error ()
    rpmOut := .ok "garbage"
    aptFileOut := .ok "libx: /usr/lib/libx.so"
    aptShowOut := fun _ => .ok "Version: 1.2-3" }

/-- Environment of the C3 counterexample: only rpm present, and its
query output splits into two fields. -/
def envRpmShort : ProbeEnv :=
  { osFile := some "ID=fedora"
    loc := { which := fun nm => if nm = "rpm" then some "/usr/bin/rpm" else none
             versionRun := fun _ => .exited 0 }
    apkOut := .error ()
    dpkgSearchOut := .error ()
    dpkgStatusOut := fun _ => .error ()
    rpmOut := .ok "bash 4.4.20"
    aptFileOut := .error ()
    aptShowOut := fun _ => .error () }

/-- Environment of the alpine scenario of C7: the identity file names
alpine, apk locates at /sbin/apk and reports bash ownership. -/
def envAlpine : ProbeEnv :=
  { osFile := some "ID=\"alpine\""
    loc := { which := fun nm => if nm = "apk" then some "/sbin/apk" else none
             versionRun := fun _ => .exited 0 }
    apkOut := .ok "/bin/bash is owned by bash-5.2.26-r0"
    dpkgSearchOut := .error ()
    dpkgStatusOut := fun _ => .error ()
    rpmOut := .error ()
    aptFileOut := .error ()
    aptShowOut := fun _ => .error () }

/-- Cache with every probe binary already resolved. -/
def cacheAllBins : Cache :=
  [("apk", some "/a"), ("dpkg", some "/d"), ("rpm", some "/r"),
   ("apt", some "/t"), ("apt-file", some "/f")]

/-- Environment in which every probe invocation exits non-zero. -/
def envAllFail : ProbeEnv :=
  { osFile := some "ID=ubuntu"
    loc := locAbsent
    apkOut := .error ()
    dpkgSearchOut := .error ()
    dpkgStatusOut := fun _ => .error ()
    rpmOut := .error ()
    aptFileOut := .error ()
    aptShowOut := fun _ => .error () }

/-- Environment whose os-release file cannot be opened. -/
def envNoOs : ProbeEnv :=
  { osFile := none
    loc := { which := fun _ => some "/bin/pm", versionRun := fun _ => .exited 0 }
    apkOut := .ok "/bin/bash is owned by bash-5.2.26-r0"
    dpkgSearchOut := .ok "bash: /bin/bash\n"
    dpkgStatusOut := fun _ => .ok "Version: 5.1\n"
    rpmOut := .ok "bash 4.4.20 4.el8_6 x86_64"
    aptFileOut := .ok "bash: /bin/bash\n"
    aptShowOut := fun _ => .ok "Version: 5.1\n" }

/-- Environment of the C8 witness: apk misses, dpkg finds an owner but
its status output has no Version line, rpm reports a full record. -/
def envDpkgNoVersion : ProbeEnv :=
  { osFile := some "ID=ubuntu"
    loc := locAbsent
    apkOut := .error ()
    dpkgSearchOut := .ok "bash: /bin/bash\n"
    dpkgStatusOut := fun _ => .ok "Package: bash\nno version line"
    rpmOut := .ok "bash 4.4.20 4.el8_6 x86_64"
    aptFileOut := .error ()
    aptShowOut := fun _ => .error () }

/-- Cache of the C8 witness: apk, dpkg and rpm already resolved. -/
def cacheThreeBins : Cache :=
  [("apk", some "/a"), ("dpkg", some "/d"), ("rpm", some "/r")]

/-- Cache of the C3 witness: apk and dpkg confirmed absent, rpm
resolved. -/
def cacheRpmOnly : Cache :=
  [("apk", none), ("dpkg", none), ("rpm", some "/usr/bin/rpm")]

section Helpers

/-- A non-empty character list renders to a non-empty string. -/
theorem asString_ne_empty {l : List Char} (h : l ≠ []) : l.asString ≠ "" := by
  intro he
  exact h (by simpa using List.asString_eq.mp he)

/-- String append is associative. -/
theorem strAppend_assoc (a b c : String) : a ++ b ++ c = a ++ (b ++ c) := by
  apply String.ext
  simp [String.data_append]

/-- A string of the shape x-y is never empty. -/
theorem strDash_ne_empty (x y : String) : x ++ "-" ++ y ≠ "" := by
  intro h
  have h2 := congrArg String.data h
  simp [String.data_append] at h2

/-- The guards of apkTail force both captured groups non-empty. -/
theorem apkTail_some {l : List Char} {n v : String}
    (h : apkTail l = some (n, v)) : n ≠ "" ∧ v ≠ "" := by
  unfold apkTail at h
  split at h
  · split at h
    · rename_i hg
      obtain ⟨h1, h2, _⟩ := hg
      obtain ⟨rfl, rfl⟩ := Prod.mk.inj (Option.some.inj h)
      exact ⟨asString_ne_empty h1, asString_ne_empty h2⟩
    · exact absurd h (by simp)
  · exact absurd h (by simp)

/-- Any successful apk search yields non-empty name and version. -/
theorem apkSearch_some : ∀ {l : List Char} {n v : String},
    apkSearch l = some (n, v) → n ≠ "" ∧ v ≠ "" := by
  intro l
  induction l with
  | nil => intro n v h; simp [apkSearch] at h
  | cons c cs ih =>
    intro n v h
    unfold apkSearch at h
    split at h
    · rename_i r heq
      obtain rfl : r = (n, v) := Option.some.inj h
      split at heq
      · exact apkTail_some heq
      · exact absurd heq (by simp)
    · exact ih h

/-- The apk stdout parser only returns non-empty fields. -/
theorem apkParse_some {s : String} {n v : String}
    (h : apkParse s = some (n, v)) : n ≠ "" ∧ v ≠ "" :=
  apkSearch_some h

/-- The dpkg -S parser only returns a non-empty package name. -/
theorem dpkgSearchParse_some {s : String} {n : String}
    (h : dpkgSearchParse s = some n) : n ≠ "" := by
  unfold dpkgSearchParse at h
  split at h
  · split at h
    · rename_i hg
      exact Option.some.inj h ▸ asString_ne_empty hg
    · exact absurd h (by simp)
  · exact absurd h (by simp)

/-- The apt-file search parser only returns a non-empty package name. -/
theorem aptFileSearchParse_some {s : String} {n : String}
    (h : aptFileSearchParse s = some n) : n ≠ "" := by
  unfold aptFileSearchParse at h
  split at h
  · split at h
    · rename_i hg
      exact Option.some.inj h ▸ asString_ne_empty hg
    · exact absurd h (by simp)
  · exact absurd h (by simp)

/-- A Version line match captures a non-empty version. -/
theorem versionAt_some {l : List Char} {v : String}
    (h : versionAt l = some v) : v ≠ "" := by
  unfold versionAt at h
  split at h
  · split at h
    · rename_i hg
      exact Option.some.inj h ▸ asString_ne_empty hg
    · exact absurd h (by simp)
  · exact absurd h (by simp)

/-- The MULTILINE Version search only returns non-empty versions. -/
theorem verSearchAux_some : ∀ {l : List Char} {b : Bool} {v : String},
    verSearchAux b l = some v → v ≠ "" := by
  intro l
  induction l with
  | nil => intro b v h; simp [verSearchAux] at h
  | cons c cs ih =>
    intro b v h
    unfold verSearchAux at h
    split at h
    · rename_i r heq
      split at heq
      · exact Option.some.inj h ▸ versionAt_some heq
      · exact absurd heq (by simp)
    · exact ih h

/-- The shared Version parser only returns non-empty versions. -/
theorem versionSearch_some {s : String} {v : String}
    (h : versionSearch s = some v) : v ≠ "" :=
  verSearchAux_some h

/-- The first field emitted by the split worker extends the reversed
accumulator. -/
theorem pySplitGo_first (n : Nat) (l acc : List Char) :
    ∃ t ps, pySplitGo n l acc = (acc.reverse ++ t) :: ps := by
  induction l generalizing n acc with
  | nil => exact ⟨[], [], by simp [pySplitGo]⟩
  | cons c cs ih =>
    by_cases hc : c = ' '
    · cases n with
      | zero =>
        obtain ⟨t, ps, h⟩ := ih 0 (c :: acc)
        refine ⟨c :: t, ps, ?_⟩
        simp only [pySplitGo, if_pos hc]
        rw [h]
        simp
      | succ m =>
        refine ⟨[], pySplitGo m cs [], ?_⟩
        simp [pySplitGo, hc]
    · obtain ⟨t, ps, h⟩ := ih n (c :: acc)
      refine ⟨c :: t, ps, ?_⟩
      simp only [pySplitGo, if_neg hc]
      rw [h]
      simp

/-- The head of a dropWhile result falsifies the predicate. -/
theorem dropWhile_head_false (p : Char → Bool) :
    ∀ (l : List Char) c cs, l.dropWhile p = c :: cs → p c = false := by
  intro l
  induction l with
  | nil => intro c cs h; simp [List.dropWhile] at h
  | cons a as ih =>
    intro c cs h
    rw [List.dropWhile_cons] at h
    split at h
    · exact ih c cs h
    · rename_i hp
      obtain ⟨rfl, _⟩ := List.cons.injEq .. ▸ h
      exact Bool.not_eq_true _ ▸ hp

/-- Stripping yields a prefix of the left-stripped list. -/
theorem pyStrip_prefix (l : List Char) : pyStrip l <+: l.dropWhile pyWs := by
  unfold pyStrip
  have h1 : (l.dropWhile pyWs).reverse.dropWhile pyWs <:+ (l.dropWhile pyWs).reverse :=
    List.dropWhile_suffix pyWs
  have h2 := List.reverse_prefix.mpr h1
  simpa using h2

/-- The first character of a stripped list is not whitespace. -/
theorem pyStrip_first {l : List Char} {ch : Char} {tl : List Char}
    (h : pyStrip l = ch :: tl) : pyWs ch = false := by
  obtain ⟨t, ht⟩ := pyStrip_prefix l
  rw [h] at ht
  exact dropWhile_head_false pyWs l ch (tl ++ t) (by rw [← ht]; simp)

/-- The name field the rpm probe unpacks is never empty: the split
input is stripped, so its first character is not a space. -/
theorem pySplit4_strip_first {l : List Char} {a b r : List Char}
    {rest : List (List Char)}
    (h : pySplit4 (pyStrip l) = a :: b :: r :: rest) : a ≠ [] := by
  rcases hs : pyStrip l with _ | ⟨ch, tl⟩
  · rw [hs] at h
    simp [pySplit4, pySplitGo] at h
  · have hch : pyWs ch = false := pyStrip_first hs
    have hsp : ch ≠ ' ' := by
      intro he
      rw [he] at hch
      simp [pyWs] at hch
    rw [hs] at h
    obtain ⟨t, ps, hgo⟩ := pySplitGo_first 4 tl [ch]
    rw [pySplit4, pySplitGo, if_neg hsp, hgo] at h
    obtain ⟨ha, _⟩ := List.cons.injEq .. ▸ h
    rw [← ha]
    simp

/-- Truthiness of a non-empty optional string. -/
theorem strTruthy_some {d : String} (hd : d ≠ "") : strTruthy (some d) = true := by
  simp [strTruthy, hd]

/-- A truthy optional string is some non-empty string. -/
theorem strTruthy_elim {o : Option String} (h : strTruthy o = true) :
    ∃ d, o = some d ∧ d ≠ "" := by
  cases o with
  | none => simp [strTruthy] at h
  | some d => exact ⟨d, rfl, by simpa [strTruthy] using h⟩

/-- A cached entry is returned at once: no search, no spawn, no cache
write. -/
theorem pmBin_cached {env : LocEnv} {cache : Cache} {nm : String}
    {codes : List Int} {e : Option String} (h : cacheGet cache nm = some e) :
    package_manager_bin env cache nm codes = (.ok e, cache, 0, 0) := by
  simp [package_manager_bin, h]

/-- The apk stage emits the parsed record when the binary resolves and
stdout matches. -/
theorem apkStage_hit {env : ProbeEnv} {distro : Option String} {cache : Cache}
    {pa sa : String} {n v : String}
    (ht : strTruthy distro = true)
    (hb : cacheGet cache "apk" = some (some pa))
    (ho : env.apkOut = .ok sa) (hp : apkParse sa = some (n, v)) :
    apkStage env distro cache = (.ok (some ⟨"apk", distro, n, v⟩), cache) := by
  simp [apkStage, ht, pmBin_cached hb, ho, hp]

/-- The apk stage falls through when the probe runs and misses. -/
theorem apkStage_skip {env : ProbeEnv} {distro : Option String} {cache : Cache}
    {pa : String}
    (ht : strTruthy distro = true)
    (hb : cacheGet cache "apk" = some (some pa))
    (hm : apkMiss env) :
    apkStage env distro cache = (.ok none, cache) := by
  rcases hm with h | ⟨s, ho, hp⟩
  · simp [apkStage, ht, pmBin_cached hb, h]
  · simp [apkStage, ht, pmBin_cached hb, ho, hp]

/-- The apk stage falls through when the binary is cached absent. -/
theorem apkStage_noBin {env : ProbeEnv} {distro : Option String} {cache : Cache}
    (ht : strTruthy distro = true)
    (hb : cacheGet cache "apk" = some none) :
    apkStage env distro cache = (.ok none, cache) := by
  simp [apkStage, ht, pmBin_cached hb]

/-- The dpkg stage emits the parsed record when both invocations
succeed and parse. -/
theorem dpkgStage_hit {env : ProbeEnv} {distro : Option String} {cache : Cache}
    {pd s1 s2 : String} {n v : String}
    (ht : strTruthy distro = true)
    (hb : cacheGet cache "dpkg" = some (some pd))
    (h1 : env.dpkgSearchOut = .ok s1) (h2 : dpkgSearchParse s1 = some n)
    (h3 : env.dpkgStatusOut n = .ok s2) (h4 : versionSearch s2 = some v) :
    dpkgStage env distro cache = (.ok (some ⟨"deb", distro, n, v⟩), cache) := by
  simp [dpkgStage, ht, pmBin_cached hb, h1, h2, h3, h4]

/-- The dpkg stage falls through when the probe runs and misses. -/
theorem dpkgStage_skip {env : ProbeEnv} {distro : Option String} {cache : Cache}
    {pd : String}
    (ht : strTruthy distro = true)
    (hb : cacheGet cache "dpkg" = some (some pd))
    (hm : dpkgMiss env) :
    dpkgStage env distro cache = (.ok none, cache) := by
  rcases hm with h | ⟨s, ho, hp⟩ | ⟨s, n, ho, hp, h2 | ⟨s2, h2, h3⟩⟩
  · simp [dpkgStage, ht, pmBin_cached hb, h]
  · simp [dpkgStage, ht, pmBin_cached hb, ho, hp]
  · simp [dpkgStage, ht, pmBin_cached hb, ho, hp, h2]
  · simp [dpkgStage, ht, pmBin_cached hb, ho, hp, h2, h3]

/-- The dpkg stage falls through when the binary is cached absent. -/
theorem dpkgStage_noBin {env : ProbeEnv} {distro : Option String} {cache : Cache}
    (ht : strTruthy distro = true)
    (hb : cacheGet cache "dpkg" = some none) :
    dpkgStage env distro cache = (.ok none, cache) := by
  simp [dpkgStage, ht, pmBin_cached hb]

/-- The rpm stage emits a record built from the first three fields when
the split produces at least three. -/
theorem rpmStage_hit {env : ProbeEnv} {distro : Option String} {cache : Cache}
    {pr sr : String} {a b r : List Char} {rest : List (List Char)}
    (ht : strTruthy distro = true)
    (hb : cacheGet cache "rpm" = some (some pr))
    (ho : env.rpmOut = .ok sr)
    (hs : pySplit4 (pyStrip sr.toList) = a :: b :: r :: rest) :
    rpmStage env distro cache =
      (.ok (some ⟨"rpm", distro, a.asString, b.asString ++ "-" ++ r.asString⟩), cache) := by
  have hs2 : pySplit4 (pyStrip sr.data) = a :: b :: r :: rest := hs
  simp [rpmStage, ht, pmBin_cached hb, ho, hs2]

/-- The rpm stage falls through on a non-zero exit of the query. -/
theorem rpmStage_errSkip {env : ProbeEnv} {distro : Option String} {cache : Cache}
    {pr : String}
    (ht : strTruthy distro = true)
    (hb : cacheGet cache "rpm" = some (some pr))
    (ho : env.rpmOut = .error ()) :
    rpmStage env distro cache = (.ok none, cache) := by
  simp [rpmStage, ht, pmBin_cached hb, ho]

/-- The rpm stage raises ValueError when the split yields fewer than
three fields. -/
theorem rpmStage_short {env : ProbeEnv} {distro : Option String} {cache : Cache}
    {pr sr : String}
    (ht : strTruthy distro = true)
    (hb : cacheGet cache "rpm" = some (some pr))
    (ho : env.rpmOut = .ok sr)
    (hs : (pySplit4 (pyStrip sr.toList)).length < 3) :
    rpmStage env distro cache = (.error .valueErr, cache) := by
  rcases hl : pySplit4 (pyStrip sr.data) with _ | ⟨a, _ | ⟨b, _ | ⟨r, rest⟩⟩⟩
  · simp [rpmStage, ht, pmBin_cached hb, ho, hl]
  · simp [rpmStage, ht, pmBin_cached hb, ho, hl]
  · simp [rpmStage, ht, pmBin_cached hb, ho, hl]
  · have hs2 : (pySplit4 (pyStrip sr.data)).length < 3 := hs
    rw [hl] at hs2
    simp at hs2
    omega

/-- The rpm stage falls through when the binary is cached absent. -/
theorem rpmStage_noBin {env : ProbeEnv} {distro : Option String} {cache : Cache}
    (ht : strTruthy distro = true)
    (hb : cacheGet cache "rpm" = some none) :
    rpmStage env distro cache = (.ok none, cache) := by
  simp [rpmStage, ht, pmBin_cached hb]

/-- The apt stage emits the parsed record when both binaries resolve
and both invocations parse. -/
theorem aptStage_hit {env : ProbeEnv} {distro : Option String} {cache : Cache}
    {pt pf s1 s2 : String} {n v : String}
    (ht : strTruthy distro = true)
    (hb1 : cacheGet cache "apt" = some (some pt))
    (hb2 : cacheGet cache "apt-file" = some (some pf))
    (h1 : env.aptFileOut = .ok s1) (h2 : aptFileSearchParse s1 = some n)
    (h3 : env.aptShowOut n = .ok s2) (h4 : versionSearch s2 = some v) :
    aptStage env distro cache = (.ok (some ⟨"deb", distro, n, v⟩), cache) := by
  simp [aptStage, ht, pmBin_cached hb1, pmBin_cached hb2, h1, h2, h3, h4]

/-- The apt stage falls through when the probe runs and misses. -/
theorem aptStage_skip {env : ProbeEnv} {distro : Option String} {cache : Cache}
    {pt pf : String}
    (ht : strTruthy distro = true)
    (hb1 : cacheGet cache "apt" = some (some pt))
    (hb2 : cacheGet cache "apt-file" = some (some pf))
    (hm : aptMiss env) :
    aptStage env distro cache = (.ok none, cache) := by
  rcases hm with h | ⟨s, ho, hp⟩ | ⟨s, n, ho, hp, h2 | ⟨s2, h2, h3⟩⟩
  · simp [aptStage, ht, pmBin_cached hb1, pmBin_cached hb2, h]
  · simp [aptStage, ht, pmBin_cached hb1, pmBin_cached hb2, ho, hp]
  · simp [aptStage, ht, pmBin_cached hb1, pmBin_cached hb2, ho, hp, h2]
  · simp [aptStage, ht, pmBin_cached hb1, pmBin_cached hb2, ho, hp, h2, h3]

/-- Any record the apk stage returns carries the truthy distro and
non-empty name and version. -/
theorem apkStage_record {env : ProbeEnv} {distro : Option String} {cache : Cache}
    {p : Provides} {c' : Cache}
    (h : apkStage env distro cache = (.ok (some p), c')) :
    strTruthy distro = true ∧ p.distro = distro ∧
      p.package_name ≠ "" ∧ p.package_version ≠ "" := by
  unfold apkStage at h
  split at h
  · rename_i ht
    split at h
    · simp at h
    · simp at h
    · split at h
      · simp at h
      · split at h
        · rename_i heq
          rw [Prod.mk.injEq] at h
          obtain ⟨h1, rfl⟩ := h
          rw [Except.ok.injEq, Option.some.injEq] at h1
          subst h1
          obtain ⟨hn, hv⟩ := apkParse_some heq
          exact ⟨ht, rfl, hn, hv⟩
        · simp at h
  · simp at h

/-- Any record the dpkg stage returns carries the truthy distro and
non-empty name and version. -/
theorem dpkgStage_record {env : ProbeEnv} {distro : Option String} {cache : Cache}
    {p : Provides} {c' : Cache}
    (h : dpkgStage env distro cache = (.ok (some p), c')) :
    strTruthy distro = true ∧ p.distro = distro ∧
      p.package_name ≠ "" ∧ p.package_version ≠ "" := by
  unfold dpkgStage at h
  split at h
  · rename_i ht
    split at h
    · simp at h
    · simp at h
    · split at h
      · simp at h
      · split at h
        · simp at h
        · rename_i heq2
          split at h
          · simp at h
          · split at h
            · rename_i heq4
              rw [Prod.mk.injEq] at h
              obtain ⟨h1, rfl⟩ := h
              rw [Except.ok.injEq, Option.some.injEq] at h1
              subst h1
              exact ⟨ht, rfl, dpkgSearchParse_some heq2, versionSearch_some heq4⟩
            · simp at h
  · simp at h

/-- Any record the rpm stage returns carries the truthy distro and
non-empty name and version. -/
theorem rpmStage_record {env : ProbeEnv} {distro : Option String} {cache : Cache}
    {p : Provides} {c' : Cache}
    (h : rpmStage env distro cache = (.ok (some p), c')) :
    strTruthy distro = true ∧ p.distro = distro ∧
      p.package_name ≠ "" ∧ p.package_version ≠ "" := by
  unfold rpmStage at h
  split at h
  · rename_i ht
    split at h
    · simp at h
    · simp at h
    · split at h
      · simp at h
      · rename_i out hout
        split at h
        · rename_i a b r rest heq
          rw [Prod.mk.injEq] at h
          obtain ⟨h1, rfl⟩ := h
          rw [Except.ok.injEq, Option.some.injEq] at h1
          subst h1
          refine ⟨ht, rfl, ?_, strDash_ne_empty _ _⟩
          exact asString_ne_empty (pySplit4_strip_first heq)
        · simp at h
  · simp at h

/-- Any record the apt stage returns carries the truthy distro and
non-empty name and version. -/
theorem aptStage_record {env : ProbeEnv} {distro : Option String} {cache : Cache}
    {p : Provides} {c' : Cache}
    (h : aptStage env distro cache = (.ok (some p), c')) :
    strTruthy distro = true ∧ p.distro = distro ∧
      p.package_name ≠ "" ∧ p.package_version ≠ "" := by
  unfold aptStage at h
  split at h
  · rename_i ht
    split at h
    · simp at h
    · simp at h
    · split at h
      · simp at h
      · simp at h
      · split at h
        · simp at h
        · split at h
          · simp at h
          · rename_i heq2
            split at h
            · simp at h
            · split at h
              · rename_i heq4
                rw [Prod.mk.injEq] at h
                obtain ⟨h1, rfl⟩ := h
                rw [Except.ok.injEq, Option.some.injEq] at h1
                subst h1
                exact ⟨ht, rfl, aptFileSearchParse_some heq2, versionSearch_some heq4⟩
              · simp at h
  · simp at h

/-- A record out of a chained pair came from its first stage or, after
a fall-through, from its continuation. -/
theorem chain2_record {r : Except PyErr (Option Provides) × Cache}
    {k : Cache → Except PyErr (Option Provides) × Cache}
    {p : Provides} {c' : Cache}
    (h : chain2 r k = (.ok (some p), c')) :
    r = (.ok (some p), c') ∨ ∃ cm, r = (.ok none, cm) ∧ k cm = (.ok (some p), c') := by
  obtain ⟨e, cm⟩ := r
  rcases e with pe | op
  · simp [chain2] at h
  · rcases op with _ | q
    · exact Or.inr ⟨cm, rfl, h⟩
    · exact Or.inl (by simpa [chain2] using h)

/-- Unfolded form of whichprovides with the resolved distro inlined. -/
theorem whichprovides_eq (env : ProbeEnv) (cache : Cache) :
    whichprovides env cache =
      chain2 (apkStage env (dictGet (os_release env.osFile) "ID") cache) (fun c1 =>
      chain2 (dpkgStage env (dictGet (os_release env.osFile) "ID") c1) (fun c2 =>
      chain2 (rpmStage env (dictGet (os_release env.osFile) "ID") c2) (fun c3 =>
      aptStage env (dictGet (os_release env.osFile) "ID") c3))) := rfl

/-- A purl of a record with a truthy distro spells out the distro
segment. -/
theorem purl_with_distro {p : Provides} {d : String}
    (hp : p.distro = some d) (hd : d ≠ "") :
    p.purl = "pkg:" ++ p.package_type ++ "/" ++ d ++ "/" ++ p.package_name
      ++ "@" ++ p.package_version ++ "?distro=almalinux-8" := by
  simp [Provides.purl, hp, hd, strAppend_assoc]

end Helpers

section Claims

/-- Claim C1, counterexample to the claim as stated: with ubuntu as
distro, no apk or dpkg binary, and a working rpm binary whose query
exits zero with the unparsable single-field output garbage, the
resolver does not fall through to the apt probe (which would have
produced a deb record for libx): it terminates with an uncaught
ValueError. -/
theorem c1_counterexample :
    (whichprovides envChainBreak []).1 = .error .valueErr
    ∧ (whichprovides envChainBreak []).1 ≠
        .ok (some ⟨"deb", some "ubuntu", "libx", "1.2-3"⟩) := by
  refine ⟨rfl, ?_⟩
  intro h
  rw [show (whichprovides envChainBreak []).1 = .error .valueErr from rfl] at h
  exact Except.noConfusion h

/-- Claim C1, amended: the resolver evaluates the probes strictly in
the order apk, dpkg, rpm, apt, the first structured match determines
the result without consulting later probes, and a probe that exits
non-zero or whose output fails its pattern falls through to the next
probe, except that an rpm stdout splitting into fewer than three
fields raises an uncaught ValueError instead of falling through. -/
theorem c1_chain_amended (env : ProbeEnv) (cache : Cache)
    (d pa pd pr pt pf : String)
    (hos : dictGet (os_release env.osFile) "ID" = some d) (hd : d ≠ "")
    (ha : cacheGet cache "apk" = some (some pa))
    (hb : cacheGet cache "dpkg" = some (some pd))
    (hc : cacheGet cache "rpm" = some (some pr))
    (he : cacheGet cache "apt" = some (some pt))
    (hf : cacheGet cache "apt-file" = some (some pf)) :
    (∀ sa n v, env.apkOut = .ok sa → apkParse sa = some (n, v) →
      whichprovides env cache = (.ok (some ⟨"apk", some d, n, v⟩), cache))
    ∧ (apkMiss env → ∀ s1 n s2 v, env.dpkgSearchOut = .ok s1 →
        dpkgSearchParse s1 = some n → env.dpkgStatusOut n = .ok s2 →
        versionSearch s2 = some v →
        whichprovides env cache = (.ok (some ⟨"deb", some d, n, v⟩), cache))
    ∧ (apkMiss env → dpkgMiss env → ∀ sr a b r rest, env.rpmOut = .ok sr →
        pySplit4 (pyStrip sr.toList) = a :: b :: r :: rest →
        whichprovides env cache =
          (.ok (some ⟨"rpm", some d, a.asString, b.asString ++ "-" ++ r.asString⟩), cache))
    ∧ (apkMiss env → dpkgMiss env → env.rpmOut = .error () → ∀ s1 n s2 v,
        env.aptFileOut = .ok s1 → aptFileSearchParse s1 = some n →
        env.aptShowOut n = .ok s2 → versionSearch s2 = some v →
        whichprovides env cache = (.ok (some ⟨"deb", some d, n, v⟩), cache))
    ∧ (apkMiss env → dpkgMiss env → env.rpmOut = .error () → aptMiss env →
        whichprovides env cache = (.ok none, cache)) := by
  have ht : strTruthy (some d) = true := strTruthy_some hd
  refine ⟨?_, ?_, ?_, ?_, ?_⟩
  · intro sa n v ho hp
    rw [whichprovides_eq, hos, apkStage_hit ht ha ho hp]
    try simp [chain2]
  · intro hm s1 n s2 v h1 h2 h3 h4
    rw [whichprovides_eq, hos, apkStage_skip ht ha hm]
    simp only [chain2]
    rw [dpkgStage_hit ht hb h1 h2 h3 h4]
    try simp [chain2]
  · intro hm hm2 sr a b r rest ho hsp
    rw [whichprovides_eq, hos, apkStage_skip ht ha hm]
    simp only [chain2]
    rw [dpkgStage_skip ht hb hm2]
    simp only [chain2]
    rw [rpmStage_hit ht hc ho hsp]
    try simp [chain2]
  · intro hm hm2 hr s1 n s2 v h1 h2 h3 h4
    rw [whichprovides_eq, hos, apkStage_skip ht ha hm]
    simp only [chain2]
    rw [dpkgStage_skip ht hb hm2]
    simp only [chain2]
    rw [rpmStage_errSkip ht hc hr]
    simp only [chain2]
    rw [aptStage_hit ht he hf h1 h2 h3 h4]
  · intro hm hm2 hr hm4
    rw [whichprovides_eq, hos, apkStage_skip ht ha hm]
    simp only [chain2]
    rw [dpkgStage_skip ht hb hm2]
    simp only [chain2]
    rw [rpmStage_errSkip ht hc hr]
    simp only [chain2]
    rw [aptStage_skip ht he hf hm4]

/-- Claim C1, witness: with every binary cached and every probe
exiting non-zero, the resolver of the amended chain returns the
unknown result with the cache unchanged. -/
theorem c1_witness : whichprovides envAllFail cacheAllBins = (.ok none, cacheAllBins) :=
  (c1_chain_amended envAllFail cacheAllBins "ubuntu" "/a" "/d" "/r" "/t" "/f"
    rfl (by decide) rfl rfl rfl rfl rfl).2.2.2.2
    (Or.inl rfl) (Or.inl rfl) rfl (Or.inl rfl)

/-- Claim C2: when the os-release file cannot be opened, the resolver
returns the unknown result at once, leaves the cache untouched, and
consults no probe, whatever binaries are installed and whatever the
probe invocations would return. -/
theorem c2_no_identity_no_probe (env : ProbeEnv) (cache : Cache)
    (h : env.osFile = none) :
    whichprovides env cache = (.ok none, cache) := by
  have hd : dictGet (os_release env.osFile) "ID" = none := by rw [h]; rfl
  rw [whichprovides_eq, hd]
  simp [apkStage, dpkgStage, rpmStage, aptStage, strTruthy, chain2]

/-- Claim C2, witness: an environment with every package manager
installed and answering still yields unknown when the identity file is
absent. -/
theorem c2_witness : whichprovides envNoOs [] = (.ok none, []) :=
  c2_no_identity_no_probe envNoOs [] rfl

/-- Claim C3, counterexample to the claim as stated: an rpm stdout
with two space-separated fields is not treated as a miss; the
resolver terminates with an uncaught ValueError. -/
theorem c3_counterexample :
    (whichprovides envRpmShort []).1 = .error .valueErr
    ∧ (whichprovides envRpmShort []).1 ≠ .ok none := by
  refine ⟨rfl, ?_⟩
  intro h
  rw [show (whichprovides envRpmShort []).1 = .error .valueErr from rfl] at h
  exact Except.noConfusion h

/-- Claim C3, amended: an rpm stdout whose trimmed single-space split
yields fewer than three fields makes the tuple unpacking raise a
ValueError that escapes the resolver (only the CalledProcessError of
a non-zero exit is absorbed as a miss). -/
theorem c3_rpm_short_raises (env : ProbeEnv) (cache : Cache) (d pr sr : String)
    (hos : dictGet (os_release env.osFile) "ID" = some d) (hd : d ≠ "")
    (ha : cacheGet cache "apk" = some none)
    (hb : cacheGet cache "dpkg" = some none)
    (hc : cacheGet cache "rpm" = some (some pr))
    (ho : env.rpmOut = .ok sr)
    (hs : (pySplit4 (pyStrip sr.toList)).length < 3) :
    whichprovides env cache = (.error .valueErr, cache) := by
  have ht := strTruthy_some hd
  rw [whichprovides_eq, hos, apkStage_noBin ht ha]
  simp only [chain2]
  rw [dpkgStage_noBin ht hb]
  simp only [chain2]
  rw [rpmStage_short ht hc ho hs]

/-- Claim C3, witness: the amended behaviour at the concrete short
output bash 4.4.20 with apk and dpkg cached absent. -/
theorem c3_witness :
    whichprovides envRpmShort cacheRpmOnly = (.error .valueErr, cacheRpmOnly) :=
  c3_rpm_short_raises envRpmShort cacheRpmOnly "fedora" "/usr/bin/rpm" "bash 4.4.20"
    rfl (by decide) rfl rfl rfl rfl (by decide)

/-- Claim C4: the canonical identity string is the pure deterministic
function pkg:type/distro/name@version of the four fields, with the
distro segment omitted for an absent distro and the fixed literal
qualifier suffix appended. -/
theorem c4_purl_canonical (t d n v : String) (hd : d ≠ "") :
    Provides.purl ⟨t, some d, n, v⟩ =
      "pkg:" ++ t ++ "/" ++ d ++ "/" ++ n ++ "@" ++ v ++ "?distro=almalinux-8"
    ∧ Provides.purl ⟨t, none, n, v⟩ =
      "pkg:" ++ t ++ "/" ++ n ++ "@" ++ v ++ "?distro=almalinux-8"
    ∧ (∀ p q : Provides, p.package_type = q.package_type → p.distro = q.distro →
        p.package_name = q.package_name → p.package_version = q.package_version →
        p.purl = q.purl) := by
  refine ⟨?_, ?_, ?_⟩
  · exact purl_with_distro rfl hd
  · simp [Provides.purl, strAppend_assoc]
  · intro p q h1 h2 h3 h4
    cases p
    cases q
    simp_all

/-- Claim C4, witness at concrete fields. -/
theorem c4_witness :
    Provides.purl ⟨"apk", some "alpine", "bash", "5.2.26-r0"⟩ =
      "pkg:" ++ "apk" ++ "/" ++ "alpine" ++ "/" ++ "bash" ++ "@" ++ "5.2.26-r0"
        ++ "?distro=almalinux-8" :=
  (c4_purl_canonical "apk" "alpine" "bash" "5.2.26-r0" (by decide)).1

/-- Claim C5: a cached name is answered at once with no search, no
spawn and no cache write; two successive calls for an absent name do
exactly one search in total, at most one spawn (exactly one whenever
the search found a candidate binary), and the second call does
nothing. -/
theorem c5_locator_memoized (env : LocEnv) (cache : Cache) (nm : String)
    (codes : List Int) :
    (∀ e, cacheGet cache nm = some e →
      package_manager_bin env cache nm codes = (.ok e, cache, 0, 0))
    ∧ (cacheGet cache nm = none →
       ∀ res c1 w1 s1, package_manager_bin env cache nm codes = (res, c1, w1, s1) →
         res = .ok none →
         package_manager_bin env c1 nm codes = (.ok none, c1, 0, 0)
         ∧ w1 = 1 ∧ s1 ≤ 1 ∧ (∀ p, env.which nm = some p → s1 = 1)) := by
  constructor
  · intro e h
    exact pmBin_cached h
  · intro hnone res c1 w1 s1 hcall hres
    subst hres
    rcases hwc : env.which nm with _ | p
    · have hval : package_manager_bin env cache nm codes =
          (.ok none, (nm, none) :: cache, 1, 0) := by
        simp [package_manager_bin, hnone, hwc]
      rw [hval] at hcall
      simp only [Prod.mk.injEq] at hcall
      obtain ⟨-, hc1, hw1, hs1⟩ := hcall
      subst hc1
      subst hw1
      subst hs1
      refine ⟨pmBin_cached ?_, rfl, by omega, ?_⟩
      · simp [cacheGet]
      · exact fun p hp => Option.noConfusion hp
    · rcases hvr : env.versionRun p with code | _
      · by_cases h0 : code = 0
        · have hval : package_manager_bin env cache nm codes =
              (.ok (some p), (nm, some p) :: cache, 1, 1) := by
            simp [package_manager_bin, hnone, hwc, hvr, h0]
          rw [hval] at hcall
          simp at hcall
        · by_cases hmem : code ∈ codes
          · have hval : package_manager_bin env cache nm codes =
                (.ok (some p), (nm, some p) :: cache, 1, 1) := by
              simp [package_manager_bin, hnone, hwc, hvr, h0, hmem]
            rw [hval] at hcall
            simp at hcall
          · have hval : package_manager_bin env cache nm codes =
                (.ok none, (nm, none) :: cache, 1, 1) := by
              simp [package_manager_bin, hnone, hwc, hvr, h0, hmem]
            rw [hval] at hcall
            simp only [Prod.mk.injEq] at hcall
            obtain ⟨-, hc1, hw1, hs1⟩ := hcall
            subst hc1
            subst hw1
            subst hs1
            refine ⟨pmBin_cached ?_, rfl, by omega, fun _ _ => rfl⟩
            simp [cacheGet]
      · have hval : package_manager_bin env cache nm codes =
            (.error (), cache, 1, 1) := by
          simp [package_manager_bin, hnone, hwc, hvr]
        rw [hval] at hcall
        simp at hcall

/-- Claim C5, witness: a first call for a missing binary records the
absent sentinel with one search, and the repeat call is a pure cache
hit. -/
theorem c5_witness :
    package_manager_bin locAbsent [] "apk" [] = (.ok none, [("apk", none)], 1, 0)
    ∧ package_manager_bin locAbsent [("apk", none)] "apk" [] =
        (.ok none, [("apk", none)], 0, 0) := by
  refine ⟨rfl, ?_⟩
  exact ((c5_locator_memoized locAbsent [] "apk" []).2 rfl
    (.ok none) [("apk", none)] 1 0 rfl rfl).1

/-- Claim C6, counterexample to the claim as stated: when the found
binary cannot be spawned at all, the locator neither caches the name
as absent nor returns absent; the failure escapes and the cache is
unchanged. -/
theorem c6_counterexample :
    package_manager_bin locSpawnFail [] "rpm" [] = (.error (), [], 1, 1)
    ∧ (package_manager_bin locSpawnFail [] "rpm" []).1 ≠ .ok none
    ∧ cacheGet (package_manager_bin locSpawnFail [] "rpm" []).2.1 "rpm" = none := by
  refine ⟨rfl, ?_, rfl⟩
  intro h
  rw [show (package_manager_bin locSpawnFail [] "rpm" []).1 = .error () from rfl] at h
  exact Except.noConfusion h

/-- Claim C6, amended: an unacceptable non-zero exit of the version
query caches the name as absent and returns absent, but a failure to
execute the binary at all propagates as an uncaught error and leaves
the name uncached. -/
theorem c6_locator_failure_amended (env : LocEnv) (cache : Cache) (nm p : String)
    (codes : List Int)
    (hcg : cacheGet cache nm = none) (hw : env.which nm = some p) :
    (∀ code : Int, env.versionRun p = .exited code → code ≠ 0 → code ∉ codes →
      package_manager_bin env cache nm codes = (.ok none, (nm, none) :: cache, 1, 1))
    ∧ (env.versionRun p = .execFail →
      package_manager_bin env cache nm codes = (.error (), cache, 1, 1)) := by
  constructor
  · intro code hv h0 hmem
    simp [package_manager_bin, hcg, hw, hv, h0, hmem]
  · intro hv
    simp [package_manager_bin, hcg, hw, hv]

/-- Claim C6, witness: exit code 3 caches absent; a spawn failure
escapes with the cache unchanged. -/
theorem c6_witness :
    package_manager_bin locBadExit [] "tool" [] = (.ok none, [("tool", none)], 1, 1)
    ∧ package_manager_bin locSpawnFail [] "rpm" [] = (.error (), [], 1, 1) := by
  constructor
  · exact (c6_locator_failure_amended locBadExit [] "tool" "/usr/bin/tool" []
      rfl rfl).1 3 rfl (by decide) (by decide)
  · exact (c6_locator_failure_amended locSpawnFail [] "rpm" "/usr/bin/rpm" []
      rfl rfl).2 rfl

/-- Claim C7: with identity file content naming alpine, a locatable
apk binary and the stdout /bin/bash is owned by bash-5.2.26-r0, the
resolver returns the apk record for bash 5.2.26-r0. -/
theorem c7_alpine_scenario (env : ProbeEnv) (cache : Cache) (pa : String)
    (hos : env.osFile = some "ID=\"alpine\"")
    (hcg : cacheGet cache "apk" = none)
    (hw : env.loc.which "apk" = some pa)
    (hv : env.loc.versionRun pa = .exited 0)
    (ho : env.apkOut = .ok "/bin/bash is owned by bash-5.2.26-r0") :
    whichprovides env cache =
      (.ok (some ⟨"apk", some "alpine", "bash", "5.2.26-r0"⟩),
        ("apk", some pa) :: cache) := by
  have hos2 : dictGet (os_release env.osFile) "ID" = some "alpine" := by
    rw [hos]
    rfl
  have hpmb : package_manager_bin env.loc cache "apk" [] =
      (.ok (some pa), ("apk", some pa) :: cache, 1, 1) := by
    simp [package_manager_bin, hcg, hw, hv]
  have ht : strTruthy (some "alpine") = true := rfl
  have hp : apkParse "/bin/bash is owned by bash-5.2.26-r0" =
      some ("bash", "5.2.26-r0") := by decide
  rw [whichprovides_eq, hos2]
  have hstage : apkStage env (some "alpine") cache =
      (.ok (some ⟨"apk", some "alpine", "bash", "5.2.26-r0"⟩),
        ("apk", some pa) :: cache) := by
    simp [apkStage, ht, hpmb, ho, hp]
  rw [hstage]
  try simp [chain2]

/-- Claim C7, witness at a fully concrete environment. -/
theorem c7_witness :
    whichprovides envAlpine [] =
      (.ok (some ⟨"apk", some "alpine", "bash", "5.2.26-r0"⟩),
        [("apk", some "/sbin/apk")]) :=
  c7_alpine_scenario envAlpine [] "/sbin/apk" rfl rfl rfl rfl rfl

/-- Claim C8: when dpkg -S names an owner but dpkg -s shows no Version
line, the dpkg probe yields no record at all and the resolver moves on
to the rpm and apt stages. -/
theorem c8_dpkg_unversioned_is_miss (env : ProbeEnv) (cache : Cache)
    (d pa pd s1 nd s2 : String)
    (hos : dictGet (os_release env.osFile) "ID" = some d) (hd : d ≠ "")
    (ha : cacheGet cache "apk" = some (some pa))
    (hb : cacheGet cache "dpkg" = some (some pd))
    (hm : apkMiss env)
    (h1 : env.dpkgSearchOut = .ok s1) (h2 : dpkgSearchParse s1 = some nd)
    (h3 : env.dpkgStatusOut nd = .ok s2) (h4 : versionSearch s2 = none) :
    dpkgStage env (some d) cache = (.ok none, cache)
    ∧ whichprovides env cache =
        chain2 (rpmStage env (some d) cache) (fun c3 => aptStage env (some d) c3) := by
  have ht := strTruthy_some hd
  have hdm : dpkgMiss env := Or.inr (Or.inr ⟨s1, nd, h1, h2, Or.inr ⟨s2, h3, h4⟩⟩)
  refine ⟨dpkgStage_skip ht hb hdm, ?_⟩
  rw [whichprovides_eq, hos, apkStage_skip ht ha hm]
  simp only [chain2]
  rw [dpkgStage_skip ht hb hdm]
  try simp only [chain2]

/-- Claim C8, witness: the dpkg probe finds bash but no Version line;
the resolver continues and the rpm probe answers. -/
theorem c8_witness :
    whichprovides envDpkgNoVersion cacheThreeBins =
      (.ok (some ⟨"rpm", some "ubuntu", "bash", "4.4.20" ++ "-" ++ "4.el8_6"⟩),
        cacheThreeBins) := by
  have h := (c8_dpkg_unversioned_is_miss envDpkgNoVersion cacheThreeBins
    "ubuntu" "/a" "/d" "bash: /bin/bash\n" "bash" "Package: bash\nno version line"
    rfl (by decide) rfl rfl (Or.inl rfl) rfl rfl rfl rfl).2
  rw [h]
  rfl

/-- Claim C9: every record the resolver returns has a non-empty
package name and a non-empty package version, whatever the distro,
the probe outcomes and the probe stdout contents. -/
theorem c9_no_partial_records (env : ProbeEnv) (cache : Cache)
    (p : Provides) (c' : Cache)
    (h : whichprovides env cache = (.ok (some p), c')) :
    p.package_name ≠ "" ∧ p.package_version ≠ "" := by
  rw [whichprovides_eq] at h
  rcases chain2_record h with h1 | ⟨c1, -, h1⟩
  · exact (apkStage_record h1).2.2
  rcases chain2_record h1 with h2 | ⟨c2, -, h2⟩
  · exact (dpkgStage_record h2).2.2
  rcases chain2_record h2 with h3 | ⟨c3, -, h3⟩
  · exact (rpmStage_record h3).2.2
  · exact (aptStage_record h3).2.2

/-- Claim C9, witness at the alpine environment. -/
theorem c9_witness : ("bash" : String) ≠ "" ∧ ("5.2.26-r0" : String) ≠ "" :=
  c9_no_partial_records envAlpine []
    ⟨"apk", some "alpine", "bash", "5.2.26-r0"⟩ [("apk", some "/sbin/apk")] rfl

/-- Claim C10: every record the resolver returns carries a present,
non-empty distro, so its canonical identity string always contains the
distro segment. -/
theorem c10_distro_always_present (env : ProbeEnv) (cache : Cache)
    (p : Provides) (c' : Cache)
    (h : whichprovides env cache = (.ok (some p), c')) :
    ∃ dv, p.distro = some dv ∧ dv ≠ "" ∧
      p.purl = "pkg:" ++ p.package_type ++ "/" ++ dv ++ "/" ++ p.package_name
        ++ "@" ++ p.package_version ++ "?distro=almalinux-8" := by
  rw [whichprovides_eq] at h
  have key : strTruthy (dictGet (os_release env.osFile) "ID") = true
      ∧ p.distro = dictGet (os_release env.osFile) "ID" := by
    rcases chain2_record h with h1 | ⟨c1, -, h1⟩
    · exact ⟨(apkStage_record h1).1, (apkStage_record h1).2.1⟩
    rcases chain2_record h1 with h2 | ⟨c2, -, h2⟩
    · exact ⟨(dpkgStage_record h2).1, (dpkgStage_record h2).2.1⟩
    rcases chain2_record h2 with h3 | ⟨c3, -, h3⟩
    · exact ⟨(rpmStage_record h3).1, (rpmStage_record h3).2.1⟩
    · exact ⟨(aptStage_record h3).1, (aptStage_record h3).2.1⟩
  obtain ⟨ht, hpd⟩ := key
  obtain ⟨dv, hdv, hne⟩ := strTruthy_elim ht
  have hpds : p.distro = some dv := by rw [hpd, hdv]
  exact ⟨dv, hpds, hne, purl_with_distro hpds hne⟩

/-- Claim C10, witness at the alpine environment. -/
theorem c10_witness :
    ∃ dv, (Provides.mk "apk" (some "alpine") "bash" "5.2.26-r0").distro = some dv
      ∧ dv ≠ ""
      ∧ (Provides.mk "apk" (some "alpine") "bash" "5.2.26-r0").purl =
          "pkg:" ++ "apk" ++ "/" ++ dv ++ "/" ++ "bash" ++ "@" ++ "5.2.26-r0"
            ++ "?distro=almalinux-8" :=
  c10_distro_always_present envAlpine []
    ⟨"apk", some "alpine", "bash", "5.2.26-r0"⟩ [("apk", some "/sbin/apk")] rfl

end Claims

end Whichprovides
